import Mathlib

/-!
Verification development for the dspy repository.

The repository consists of a demonstration notebook (`dspy-playbook.ipynb`)
and a news-summarization pipeline. The notebook's configuration cell and its
`DraftArticle` module are embedded here directly from the notebook source.
The news-summarization pipeline (`ai_news_summarizer.py`) is described by the
specification but its code is not present under `src/`; the pipeline is
therefore modelled from the specification, definition by definition, and the
spec's stated properties are proved against that model.
-/

namespace DspyPlaybook

/-- Environment snapshot read by the notebook cell `env-setup`: the four
provider API-key variables, each absent (`none`) or set to a string value
(which may be the empty string). -/
structure Env where
  openai_key : Option String
  anthropic_key : Option String
  perplexity_key : Option String
  groq_key : Option String
deriving DecidableEq

/-- Python truthiness of an optional environment-variable value, as used by
the notebook's `if openai_key:` guards: `None` and the empty string are
falsy, any other string is truthy. -/
def pyTruthy : Option String → Bool
  | none => false
  | some s => s != ""

/-- Errors the `env-setup` cell can raise: the explicit
`ValueError('No supported API key found in environment variables.')`, and the
`NameError` that `dspy.configure(lm=openai_lm)` raises when the name
`openai_lm` was never bound. -/
inductive CellError where
  | valueError
  | nameError
deriving DecidableEq

/-- State of the notebook after the `env-setup` cell completes without
raising: which of the four provider LM bindings were defined, and the model
identifier of the LM passed to `dspy.configure`. -/
structure CellState where
  openai_lm_defined : Bool
  anthropic_lm_defined : Bool
  perplexity_lm_defined : Bool
  groq_lm_defined : Bool
  configured_model : String
deriving DecidableEq

/-- Shallow embedding of the notebook cell `env-setup` (src/dspy-playbook.ipynb).
The cell reads the four key variables, raises `ValueError` when
`None in [openai_key, anthropic_key, perplexity_key, groq_key]`, then binds
`openai_lm` / `anthropic_lm` / `perplexity_lm` / `groq_lm` each under an
`if key:` truthiness guard, and finally runs `dspy.configure(lm=openai_lm)`,
which raises `NameError` when `openai_lm` is unbound (that is, when
`openai_key` is falsy). -/
def envSetup (e : Env) : Except CellError CellState :=
  if e.openai_key.isNone || e.anthropic_key.isNone ||
      e.perplexity_key.isNone || e.groq_key.isNone then
    Except.error CellError.valueError
  else if pyTruthy e.openai_key then
    Except.ok
      { openai_lm_defined := true
        anthropic_lm_defined := pyTruthy e.anthropic_key
        perplexity_lm_defined := pyTruthy e.perplexity_key
        groq_lm_defined := pyTruthy e.groq_key
        configured_model := "openai/gpt-4o-mini" }
  else
    Except.error CellError.nameError

/-- Spec-side predicate, from the spec's words: configuration is acceptable
exactly when at least one supported API key is present in the environment
(absence of all supported keys is the configuration error). -/
def specAtLeastOneKey (e : Env) : Bool :=
  e.openai_key.isSome || e.anthropic_key.isSome ||
    e.perplexity_key.isSome || e.groq_key.isSome

/-- Outline produced by the notebook's `Outline` signature: a title, section
headings, and a mapping from section headings to subheadings. A Python dict
iterates in insertion order, so the mapping is embedded as an association
list. -/
structure Outline where
  title : String
  sections : List String
  section_subheadings : List (String × List String)

/-- Result of the notebook's `DraftSection` signature: a markdown-formatted
section body. -/
structure SectionDraft where
  content : String

/-- Embedding of `dspy.Prediction(title=..., sections=...)` as returned by
`DraftArticle.forward`. -/
structure Prediction where
  title : String
  sections : List String

/-- Shallow embedding of `DraftArticle.forward` (src/dspy-playbook.ipynb).
The two LM-backed sub-modules `build_outline` and `draft_section` are taken
as function parameters. The loop body prefixes the section heading with
needed markdown, prefixes each subheading likewise, drafts the section with
the outline's title as topic, and appends the drafted content. -/
def DraftArticle.forward
    (build_outline : String → Outline)
    (draft_section : String → String → List String → SectionDraft)
    (topic : String) : Prediction :=
  let outline := build_outline topic
  let sections := outline.section_subheadings.map fun p =>
    (draft_section outline.title ("## " ++ p.1)
      (p.2.map fun s => "### " ++ s)).content
  { title := outline.title, sections := sections }

/-- C1: the spec says configuration fails exactly when none of the four
supported API keys is set, and succeeds whenever at least one is present.
The notebook cell instead raises
`ValueError('No supported API key found in environment variables.')`
whenever ANY of the four keys is unset. At the environment where only
`OPENAI_API_KEY` is set, the spec-side predicate accepts but the code
raises; the raise happens although a supported key was in fact found,
contradicting the code's own error message. -/
theorem c1_config_guard_divergence :
    specAtLeastOneKey ⟨some "sk-test", none, none, none⟩ = true ∧
    envSetup ⟨some "sk-test", none, none, none⟩ =
      Except.error CellError.valueError := by
  constructor
  · rfl
  · rfl

/-- C9: for every outline returned by `build_outline`, `DraftArticle.forward`
returns a Prediction whose title equals the outline's title and whose
sections are exactly one drafted section per entry of
`section_subheadings`, in that mapping's iteration order, with the section
heading passed prefixed by a markdown heading marker and each subheading
prefixed by a markdown subheading marker; the drafting topic passed is the
outline's title. -/
theorem c9_draft_article_forward
    (build_outline : String → Outline)
    (draft_section : String → String → List String → SectionDraft)
    (topic : String) :
    (DraftArticle.forward build_outline draft_section topic).title =
      (build_outline topic).title ∧
    (DraftArticle.forward build_outline draft_section topic).sections =
      (build_outline topic).section_subheadings.map (fun p =>
        (draft_section (build_outline topic).title ("## " ++ p.1)
          (p.2.map fun s => "### " ++ s)).content) ∧
    (DraftArticle.forward build_outline draft_section topic).sections.length =
      (build_outline topic).section_subheadings.length := by
  refine ⟨rfl, rfl, ?_⟩
  simp [DraftArticle.forward]

/-- C10 counterexample: the claim asserts that whenever the configuration
cell completes without raising, each of the four provider LM bindings is
defined. In the environment where all four keys are set but
`ANTHROPIC_API_KEY` is the empty string, the `None`-membership guard passes,
`openai_lm` is bound, `dspy.configure` succeeds — the cell completes without
raising — yet `anthropic_lm` was never bound, because the empty string is
falsy under `if anthropic_key:`. -/
theorem c10_counterexample :
    envSetup ⟨some "sk-1", some "", some "pk-1", some "gk-1"⟩ =
      Except.ok
        { openai_lm_defined := true
          anthropic_lm_defined := false
          perplexity_lm_defined := true
          groq_lm_defined := true
          configured_model := "openai/gpt-4o-mini" } := by
  rfl

/-- C10 amended: whenever the configuration cell completes without raising,
all four provider key variables are non-None, `openai_lm` is defined, and
the globally configured model is unconditionally the OpenAI one; each
provider LM binding, however, is defined exactly when that provider's key is
a non-empty string — a key set to the empty string passes the None check but
leaves its binding undefined. -/
theorem c10_amended_config_cell (e : Env) (st : CellState)
    (h : envSetup e = Except.ok st) :
    e.openai_key.isSome = true ∧ e.anthropic_key.isSome = true ∧
    e.perplexity_key.isSome = true ∧ e.groq_key.isSome = true ∧
    st.openai_lm_defined = true ∧
    st.configured_model = "openai/gpt-4o-mini" ∧
    st.anthropic_lm_defined = pyTruthy e.anthropic_key ∧
    st.perplexity_lm_defined = pyTruthy e.perplexity_key ∧
    st.groq_lm_defined = pyTruthy e.groq_key := by
  unfold envSetup at h
  by_cases h1 : (e.openai_key.isNone || e.anthropic_key.isNone ||
      e.perplexity_key.isNone || e.groq_key.isNone) = true
  · rw [if_pos h1] at h
    cases h
  · rw [if_neg h1] at h
    simp only [Bool.or_eq_true, Option.isNone_iff_eq_none, not_or] at h1
    by_cases h2 : pyTruthy e.openai_key = true
    · rw [if_pos h2] at h
      cases h
      refine ⟨?_, ?_, ?_, ?_, rfl, rfl, rfl, rfl, rfl⟩
      · exact Option.isSome_iff_ne_none.mpr h1.1.1.1
      · exact Option.isSome_iff_ne_none.mpr h1.1.1.2
      · exact Option.isSome_iff_ne_none.mpr h1.1.2
      · exact Option.isSome_iff_ne_none.mpr h1.2
    · rw [if_neg h2] at h
      cases h

/-- C10 amended, witness: the amended theorem applied to the concrete
environment in which every key is a distinct non-empty string. -/
theorem c10_amended_config_cell_witness :
    (some "sk-1" : Option String).isSome = true ∧
    (some "ak-1" : Option String).isSome = true ∧
    (some "pk-1" : Option String).isSome = true ∧
    (some "gk-1" : Option String).isSome = true ∧
    (CellState.mk true true true true "openai/gpt-4o-mini").openai_lm_defined = true ∧
    (CellState.mk true true true true "openai/gpt-4o-mini").configured_model = "openai/gpt-4o-mini" ∧
    (CellState.mk true true true true "openai/gpt-4o-mini").anthropic_lm_defined = pyTruthy (some "ak-1") ∧
    (CellState.mk true true true true "openai/gpt-4o-mini").perplexity_lm_defined = pyTruthy (some "pk-1") ∧
    (CellState.mk true true true true "openai/gpt-4o-mini").groq_lm_defined = pyTruthy (some "gk-1") :=
  c10_amended_config_cell ⟨some "sk-1", some "ak-1", some "pk-1", some "gk-1"⟩
    (CellState.mk true true true true "openai/gpt-4o-mini") (by rfl)

end DspyPlaybook

namespace NewsSummarizer

/-- Modelled from the spec: `SourceConfig` (spec §3) of the news-summarizer
pipeline; the implementing file `ai_news_summarizer.py` is not under src/.
One configured news source: identifier, display name, description, RSS URL,
base URL, enabled flag, tag set, and per-source article cap. -/
structure SourceConfig where
  id : String
  name : String
  description : String
  rss_url : String
  base_url : String
  enabled : Bool
  tags : List String
  max_articles_per_source : Nat
deriving DecidableEq

/-- Modelled from the spec: one raw RSS entry as delivered by a feed, in
feed-provided order (spec §4.2); `ai_news_summarizer.py` is not under src/.
The optional RSS-supplied summary is the extraction fallback of spec §4.3. -/
structure FeedEntry where
  title : String
  link : String
  published : Option String
  rss_summary : Option String
deriving DecidableEq

/-- Modelled from the spec: `ArticleStub` (spec §3);
`ai_news_summarizer.py` is not under src/. Title, link, optional published
timestamp, back-reference to the source, plus the RSS-supplied summary used
as the extraction fallback of spec §4.3. -/
structure ArticleStub where
  title : String
  link : String
  published : Option String
  source_id : String
  rss_summary : Option String
deriving DecidableEq

/-- Modelled from the spec: `ArticleContent` (spec §3);
`ai_news_summarizer.py` is not under src/. Stub fields plus extracted body
text (possibly empty if extraction failed) and the extraction-success
flag. -/
structure ArticleContent where
  stub : ArticleStub
  body : String
  extraction_ok : Bool
deriving DecidableEq

/-- Modelled from the spec: `ArticleSummary` (spec §3);
`ai_news_summarizer.py` is not under src/. Article metadata plus the
generated summary string. -/
structure ArticleSummary where
  title : String
  link : String
  source : String
  published : Option String
  summary : String
deriving DecidableEq

/-- Modelled from the spec: `RunResult` (spec §3);
`ai_news_summarizer.py` is not under src/. Ordered sequence of
`ArticleSummary`, one executive summary string, and a generation
timestamp. -/
structure RunResult where
  articles : List ArticleSummary
  executive : String
  timestamp : String
deriving DecidableEq

/-- Modelled from the spec: `FetchError` of the error taxonomy (spec §7);
`ai_news_summarizer.py` is not under src/. -/
inductive FetchError where
  | unreachable
  | unparseable
deriving DecidableEq

/-- Modelled from the spec: `ExtractionError` of the error taxonomy
(spec §7); `ai_news_summarizer.py` is not under src/. -/
inductive ExtractError where
  | unreachable
  | noText
deriving DecidableEq

/-- Modelled from the spec: `SummarizationError` of the error taxonomy
(spec §7); `ai_news_summarizer.py` is not under src/. -/
inductive SumError where
  | apiFailure
  | timedOut
  | malformed
deriving DecidableEq

/-- Modelled from the spec: deterministic oracle standing for the outside
world of one run (spec §6) — the RSS fetch per source, the body extraction
per article page, and the two remote summarization API operations of
spec §4.4; `ai_news_summarizer.py` is not under src/. Each operation either
yields a value or fails with the taxonomy error of its stage. -/
structure World where
  fetchFeed : SourceConfig → Except FetchError (List FeedEntry)
  extractBody : ArticleStub → Except ExtractError String
  summarize : String → String → Except SumError String
  executiveSummary : List ArticleSummary → Except SumError String

/-- Modelled from the spec: construction of an `ArticleStub` from one RSS
entry of a source (spec §4.2); `ai_news_summarizer.py` is not under src/. -/
def mkStub (src : SourceConfig) (entry : FeedEntry) : ArticleStub :=
  { title := entry.title
    link := entry.link
    published := entry.published
    source_id := src.id
    rss_summary := entry.rss_summary }

/-- Modelled from the spec: the Feed Fetcher's parse step (spec §4.2);
`ai_news_summarizer.py` is not under src/. The fetched feed is truncated at
the source's `max_articles_per_source` and turned into stubs in
feed-provided order. -/
def fetchStubs (src : SourceConfig) (feed : List FeedEntry) : List ArticleStub :=
  (feed.take src.max_articles_per_source).map (mkStub src)

/-- Modelled from the spec: the Content Extractor (spec §4.3);
`ai_news_summarizer.py` is not under src/. Page extraction that succeeds
yields the extracted body; on failure the stub's RSS summary is the
fallback, else the body is empty and extraction is marked failed. An
article whose resulting body is empty is excluded from summarization. -/
def extractContent (w : World) (s : ArticleStub) : ArticleContent :=
  match w.extractBody s with
  | Except.ok body => { stub := s, body := body, extraction_ok := true }
  | Except.error _ =>
    match s.rss_summary with
    | some r => { stub := s, body := r, extraction_ok := false }
    | none => { stub := s, body := "", extraction_ok := false }

/-- Modelled from the spec: truncation of an article body to the configured
maximum input length before submission to the Summarizer (spec §4.4);
`ai_news_summarizer.py` is not under src/. -/
def truncateBody (maxLen : Nat) (body : String) : String :=
  if maxLen < body.length then String.mk (body.data.take maxLen) else body

/-- Modelled from the spec: validation of one per-article summarization
response (spec §4.4 and §9): an API error, a timeout, or a malformed
response — including an empty summary string — causes the article to be
skipped; `ai_news_summarizer.py` is not under src/. -/
def acceptSummary (s : ArticleStub) :
    Except SumError String → Option ArticleSummary
  | Except.ok text =>
    if text = "" then none
    else
      some { title := s.title
             link := s.link
             source := s.source_id
             published := s.published
             summary := text }
  | Except.error _ => none

/-- Modelled from the spec: the per-article Summarizer operation (spec §4.4);
`ai_news_summarizer.py` is not under src/. An article with no usable body is
excluded; otherwise the title and the truncated body are submitted to the
remote API and the response is validated by `acceptSummary`. -/
def summarizeArticle (w : World) (maxLen : Nat) (c : ArticleContent) :
    Option ArticleSummary :=
  if c.body = "" then none
  else acceptSummary c.stub (w.summarize c.stub.title (truncateBody maxLen c.body))

/-- Modelled from the spec: processing of one source end to end (spec §4.2,
§4.3, §4.4, §7); `ai_news_summarizer.py` is not under src/. A fetch or parse
failure skips the whole source; otherwise each stub is extracted and
summarized, and failed units are dropped. -/
def sourceSummaries (w : World) (maxLen : Nat) (src : SourceConfig) :
    List ArticleSummary :=
  match w.fetchFeed src with
  | Except.error _ => []
  | Except.ok feed =>
    (fetchStubs src feed).filterMap fun s =>
      summarizeArticle w maxLen (extractContent w s)

/-- Modelled from the spec: accumulation of article summaries across the
sources in registry order (spec §4.6); `ai_news_summarizer.py` is not under
src/. -/
def pipelineArticles (w : World) (maxLen : Nat) :
    List SourceConfig → List ArticleSummary
  | [] => []
  | src :: rest => sourceSummaries w maxLen src ++ pipelineArticles w maxLen rest

/-- Modelled from the spec: the executive-summary step (spec §4.4);
`ai_news_summarizer.py` is not under src/. On failure the report still goes
out with a placeholder in place of the executive section. -/
def execOf (w : World) (maxLen : Nat) (srcs : List SourceConfig) : String :=
  match w.executiveSummary (pipelineArticles w maxLen srcs) with
  | Except.ok e => e
  | Except.error _ => "Executive summary unavailable."

/-- Modelled from the spec: one pipeline run over the given sources
(spec §4.6, §2); `ai_news_summarizer.py` is not under src/. -/
def runPipeline (w : World) (srcs : List SourceConfig) (maxLen : Nat)
    (now : String) : RunResult :=
  { articles := pipelineArticles w maxLen srcs
    executive := execOf w maxLen srcs
    timestamp := now }

/-- Modelled from the spec: the fixed doctype opening of the report
(spec §4.5 requires a valid self-contained HTML document);
`ai_news_summarizer.py` is not under src/. -/
def docType : String := "<!DOCTYPE html>"

/-- Modelled from the spec: the report header — html scaffold, embedded
styling with no external assets, page title and header (spec §4.5);
`ai_news_summarizer.py` is not under src/. -/
def reportHeadTail : String :=
  "<html><head><meta charset=\"utf-8\"><title>AI News Summary</title><style>body \x7b font-family: sans-serif; margin: 2em \x7d</style></head><body><h1>AI News Summary</h1>"

/-- Modelled from the spec: the full report header, doctype included;
`ai_news_summarizer.py` is not under src/. -/
def reportHead : String := docType ++ reportHeadTail

/-- Modelled from the spec: the executive-summary section of the report
(spec §4.5); `ai_news_summarizer.py` is not under src/. -/
def execSection (e : String) : String :=
  "<div class=\"executive\"><h2>Executive Summary</h2><p>" ++ e ++ "</p></div>"

/-- Modelled from the spec: one article card — title, source name, publish
date, summary text, and a link to the original article (spec §4.5);
`ai_news_summarizer.py` is not under src/. -/
def renderCard (a : ArticleSummary) : String :=
  "<div class=\"article-card\"><h2><a href=\"" ++ a.link ++ "\">" ++ a.title ++
    "</a></h2><div class=\"meta\">" ++ a.source ++
    (match a.published with
     | some d => " | " ++ d
     | none => "") ++
    "</div><p>" ++ a.summary ++ "</p></div>"

/-- Modelled from the spec: the explicit indication rendered when zero
articles were successfully summarized (spec §4.5);
`ai_news_summarizer.py` is not under src/. -/
def noArticlesHtml : String :=
  "<p class=\"no-articles\">No articles were available.</p>"

/-- Modelled from the spec: the article-card region of the report — the
no-articles indication for an empty list, else one card per summary in
order (spec §4.5); `ai_news_summarizer.py` is not under src/. -/
def renderArticles (l : List ArticleSummary) : String :=
  if l.isEmpty then noArticlesHtml else String.join (l.map renderCard)

/-- Modelled from the spec: opening of the timestamp block, the one place
the generation timestamp is embedded (spec §4.5);
`ai_news_summarizer.py` is not under src/. -/
def tsOpen : String := "<div class=\"timestamp\">Generated "

/-- Modelled from the spec: closing of the timestamp block;
`ai_news_summarizer.py` is not under src/. -/
def tsClose : String := "</div>"

/-- Modelled from the spec: the fixed closing of the report document;
`ai_news_summarizer.py` is not under src/. -/
def reportFoot : String := "</body></html>"

/-- Modelled from the spec: the Report Renderer (spec §4.5), a pure function
from `RunResult` to the HTML document string: header, executive section,
article cards (or the no-articles indication), embedded generation
timestamp, and document close; `ai_news_summarizer.py` is not under src/. -/
def renderReport (r : RunResult) : String :=
  reportHead ++ execSection r.executive ++ renderArticles r.articles ++
    tsOpen ++ r.timestamp ++ tsClose ++ reportFoot

/-- Modelled from the spec: the configuration check of the Feed Registry and
CLI (spec §4.1, §6): a configuration error when the requested source count
is non-positive or when no sources are enabled;
`ai_news_summarizer.py` is not under src/. -/
def configOk (registry : List SourceConfig) (n : Option Int) : Bool :=
  !(registry.filter fun s => s.enabled).isEmpty &&
    (match n with
     | none => true
     | some k => 0 < k)

/-- Modelled from the spec: the effective source list of one run — the
enabled sources in registry order, limited to the first N when the
`--sources=N` control is given (spec §4.1, §6);
`ai_news_summarizer.py` is not under src/. -/
def effectiveSources (registry : List SourceConfig) (n : Option Int) :
    List SourceConfig :=
  let enabled := registry.filter fun s => s.enabled
  match n with
  | none => enabled
  | some k => enabled.take k.toNat

/-- Modelled from the spec: the Pipeline Driver and CLI exit behavior
(spec §4.6, §6, §7): exit code 0 with the rendered report whenever the
configuration check passes, exit code 1 with no report only on
configuration failure; `ai_news_summarizer.py` is not under src/. -/
def mainRun (w : World) (registry : List SourceConfig) (n : Option Int)
    (maxLen : Nat) (now : String) : Nat × Option String :=
  if configOk registry n then
    (0, some (renderReport (runPipeline w (effectiveSources registry n) maxLen now)))
  else
    (1, none)

/-- Modelled from the spec: tagging of work units with their original index
(spec §5: after any parallel execution, article order is restored by a
stable sort on the original index); `ai_news_summarizer.py` is not under
src/. -/
def indexFrom {α : Type} : Nat → List α → List (Nat × α)
  | _, [] => []
  | i, a :: rest => (i, a) :: indexFrom (i + 1) rest

/-- Modelled from the spec: the sequential article list of a run, tagged
with original indices before any parallel dispatch (spec §5);
`ai_news_summarizer.py` is not under src/. -/
def indexedUnits (w : World) (maxLen : Nat) (srcs : List SourceConfig) :
    List (Nat × ArticleSummary) :=
  indexFrom 0 (pipelineArticles w maxLen srcs)

/-- Modelled from the spec: the index comparison of the restoring sort
(spec §5); `ai_news_summarizer.py` is not under src/. -/
def idxLe {α : Type} (a b : Nat × α) : Bool :=
  decide (a.1 ≤ b.1)

/-- Modelled from the spec: reassembly after parallel execution — the
completed units, in whatever completion order, are stably sorted by their
original index and stripped of the index tags (spec §5);
`ai_news_summarizer.py` is not under src/. -/
def assembleParallel (completed : List (Nat × ArticleSummary)) :
    List ArticleSummary :=
  (completed.mergeSort idxLe).map Prod.snd

/-- Stripping the index tags recovers the original list. -/
theorem indexFrom_map_snd {α : Type} :
    ∀ (i : Nat) (l : List α), (indexFrom i l).map Prod.snd = l
  | _, [] => rfl
  | i, _ :: rest => by
    simp [indexFrom, indexFrom_map_snd (i + 1) rest]

/-- Every index assigned from `i` onward is at least `i`. -/
theorem mem_indexFrom_fst_le {α : Type} :
    ∀ (i : Nat) (l : List α) (p : Nat × α), p ∈ indexFrom i l → i ≤ p.1
  | _, [], _, h => by cases h
  | i, a :: rest, p, h => by
    rcases List.mem_cons.1 h with h1 | h2
    · subst h1
      exact Nat.le_refl i
    · exact Nat.le_of_succ_le (mem_indexFrom_fst_le (i + 1) rest p h2)

/-- The assigned indices are strictly increasing along the list. -/
theorem indexFrom_pairwise_lt {α : Type} :
    ∀ (i : Nat) (l : List α),
      (indexFrom i l).Pairwise fun a b => a.1 < b.1
  | _, [] => List.Pairwise.nil
  | i, a :: rest => by
    refine List.Pairwise.cons (fun q hq => ?_) (indexFrom_pairwise_lt (i + 1) rest)
    exact Nat.lt_of_lt_of_le (Nat.lt_succ_self i) (mem_indexFrom_fst_le (i + 1) rest q hq)

/-- The assigned indices are distinct. -/
theorem indexFrom_map_fst_nodup {α : Type} (i : Nat) (l : List α) :
    ((indexFrom i l).map Prod.fst).Nodup := by
  have h := indexFrom_pairwise_lt i l
  exact List.pairwise_map.2 (h.imp fun hlt => Nat.ne_of_lt hlt)

/-- A list of index-tagged units that is pairwise non-decreasing on indices
and has distinct indices is pairwise strictly increasing on indices. -/
theorem pairwise_lt_of_le_nodup {α : Type} :
    ∀ (x : List (Nat × α)),
      x.Pairwise (fun a b => a.1 ≤ b.1) →
      (x.map Prod.fst).Nodup →
      x.Pairwise fun a b => a.1 < b.1
  | [], _, _ => List.Pairwise.nil
  | p :: rest, hle, hnd => by
    rw [List.pairwise_cons] at hle ⊢
    rw [List.map_cons, List.nodup_cons] at hnd
    refine ⟨fun q hq => ?_, pairwise_lt_of_le_nodup rest hle.2 hnd.2⟩
    have h1 := hle.1 q hq
    have h2 : p.1 ≠ q.1 := by
      intro he
      exact hnd.1 (by rw [he]; exact List.mem_map_of_mem Prod.fst hq)
    omega

/-- Sorting any permutation of an index-tagged list by index recovers the
index-tagged list itself: the indices are distinct, so the sorted order is
unique. -/
theorem mergeSort_indexFrom_of_perm {α : Type} (l : List α)
    (sched : List (Nat × α)) (h : sched.Perm (indexFrom 0 l)) :
    sched.mergeSort idxLe = indexFrom 0 l := by
  have hperm : (sched.mergeSort idxLe).Perm (indexFrom 0 l) :=
    (List.mergeSort_perm sched idxLe).trans h
  have htrans : ∀ (a b c : Nat × α), idxLe a b → idxLe b c → idxLe a c := by
    intro a b c h1 h2
    simp only [idxLe, decide_eq_true_eq] at h1 h2 ⊢
    omega
  have htotal : ∀ (a b : Nat × α), idxLe a b || idxLe b a := by
    intro a b
    simp only [idxLe, Bool.or_eq_true, decide_eq_true_eq]
    omega
  have hle : (sched.mergeSort idxLe).Pairwise fun a b => a.1 ≤ b.1 := by
    have hs := List.sorted_mergeSort htrans htotal sched
    exact hs.imp fun hab => by simpa [idxLe] using hab
  have hnd : ((sched.mergeSort idxLe).map Prod.fst).Nodup :=
    (hperm.map Prod.fst).nodup_iff.mpr (indexFrom_map_fst_nodup 0 l)
  have hlt := pairwise_lt_of_le_nodup _ hle hnd
  haveI : IsAntisymm (Nat × α) fun a b => a.1 < b.1 :=
    ⟨fun _ _ h1 h2 => absurd h2 (Nat.lt_asymm h1)⟩
  exact List.eq_of_perm_of_sorted hperm hlt (indexFrom_pairwise_lt 0 l)

/-- Summaries of a source in the run's source list form a sublist of the
accumulated article list. -/
theorem sourceSummaries_sublist {w : World} {maxLen : Nat} :
    ∀ (srcs : List SourceConfig) (src : SourceConfig), src ∈ srcs →
      (sourceSummaries w maxLen src).Sublist (pipelineArticles w maxLen srcs)
  | [], _, h => by cases h
  | s :: rest, src, h => by
    rcases List.mem_cons.1 h with h1 | h2
    · subst h1
      exact List.sublist_append_left _ _
    · exact (sourceSummaries_sublist rest src h2).trans
        (List.sublist_append_right _ _)

/-- A response accepted by the validation step carries a non-empty
summary. -/
theorem acceptSummary_some_nonempty {s : ArticleStub}
    {r : Except SumError String} {a : ArticleSummary}
    (h : acceptSummary s r = some a) : a.summary ≠ "" := by
  rcases r with e | t
  · cases h
  · unfold acceptSummary at h
    dsimp only at h
    by_cases ht : t = ""
    · rw [if_pos ht] at h
      cases h
    · rw [if_neg ht] at h
      cases h
      exact ht

/-- A summary produced by the per-article Summarizer is never the empty
string. -/
theorem summarizeArticle_some_nonempty {w : World} {maxLen : Nat}
    {c : ArticleContent} {a : ArticleSummary}
    (h : summarizeArticle w maxLen c = some a) : a.summary ≠ "" := by
  unfold summarizeArticle at h
  by_cases hb : c.body = ""
  · rw [if_pos hb] at h
    cases h
  · rw [if_neg hb] at h
    exact acceptSummary_some_nonempty h

/-- A non-empty summary is produced for every member of one source's
summary list. -/
theorem sourceSummaries_mem_nonempty {w : World} {maxLen : Nat}
    {src : SourceConfig} {a : ArticleSummary}
    (h : a ∈ sourceSummaries w maxLen src) : a.summary ≠ "" := by
  unfold sourceSummaries at h
  split at h
  · cases h
  · rcases List.mem_filterMap.1 h with ⟨stub, _, hsum⟩
    exact summarizeArticle_some_nonempty hsum

/-- Fixture: first RSS entry of the witness feed. -/
def entryW1 : FeedEntry := ⟨"T1", "L1", some "2025-01-01", some "R1"⟩

/-- Fixture: second RSS entry of the witness feed. -/
def entryW2 : FeedEntry := ⟨"T2", "L2", none, none⟩

/-- Fixture: an enabled witness source whose feed succeeds. -/
def srcWit : SourceConfig :=
  ⟨"s1", "Source One", "first source", "rss1", "base1", true, [], 5⟩

/-- Fixture: an enabled witness source whose feed fetch fails. -/
def srcWitFailing : SourceConfig :=
  ⟨"s2", "Source Two", "second source", "rss2", "base2", true, [], 5⟩

/-- Fixture: a deterministic witness world — the feed of source `s2` is
unreachable, every other feed yields the two witness entries, extraction
and both summarization operations succeed. -/
def wWit : World :=
  { fetchFeed := fun src =>
      if src.id = "s2" then Except.error FetchError.unreachable
      else Except.ok [entryW1, entryW2]
    extractBody := fun s => Except.ok ("Body of " ++ s.title)
    summarize := fun t _ => Except.ok ("Summary of " ++ t)
    executiveSummary := fun _ => Except.ok "Exec overview" }

/-- Fixture: the first article summary the witness world produces for
source `s1`. -/
def aW1 : ArticleSummary :=
  ⟨"T1", "L1", "s1", some "2025-01-01", "Summary of T1"⟩

/-- Fixture: the second article summary the witness world produces for
source `s1`. -/
def aW2 : ArticleSummary := ⟨"T2", "L2", "s1", none, "Summary of T2"⟩

/-- C2: the run is a total function — it completes for every world,
including worlds whose feed fetches fail on any subset of the sources; the
exit code is 0 exactly when the configuration check passes (non-zero only
on configuration failure); on success the rendered report is produced and
it includes the summaries of every source whose fetch succeeded. -/
theorem c2_partial_failure_tolerance (w : World) (registry : List SourceConfig)
    (n : Option Int) (maxLen : Nat) (now : String) :
    ((mainRun w registry n maxLen now).1 = 0 ↔ configOk registry n = true) ∧
    (configOk registry n = true →
      (mainRun w registry n maxLen now).2 =
        some (renderReport (runPipeline w (effectiveSources registry n) maxLen now)) ∧
      ∀ src ∈ effectiveSources registry n, (w.fetchFeed src).isOk = true →
        (sourceSummaries w maxLen src).Sublist
          (runPipeline w (effectiveSources registry n) maxLen now).articles) := by
  constructor
  · by_cases hc : configOk registry n = true
    · simp [mainRun, hc]
    · simp [mainRun, hc]
  · intro hc
    constructor
    · simp [mainRun, hc]
    · intro src hmem _
      exact sourceSummaries_sublist _ src hmem

/-- C2 witness: in the witness world, the registry holding the failing
source before the healthy one still runs to completion with exit 0, and the
healthy source's summaries are included in the run's article list. -/
theorem c2_partial_failure_tolerance_witness :
    configOk [srcWitFailing, srcWit] none = true ∧
    (mainRun wWit [srcWitFailing, srcWit] none 100 "now").1 = 0 ∧
    (sourceSummaries wWit 100 srcWit).Sublist
      (runPipeline wWit (effectiveSources [srcWitFailing, srcWit] none) 100 "now").articles := by
  have T := c2_partial_failure_tolerance wWit [srcWitFailing, srcWit] none 100 "now"
  exact ⟨by decide, T.1.mpr (by decide), (T.2 (by decide)).2 srcWit (by decide) (by decide)⟩

/-- C3: for every RunResult with an empty article sequence, the Renderer —
a total function, hence never throwing — returns a document that opens with
the doctype, closes the html document, and contains the explicit
no-articles indication. -/
theorem c3_empty_report (r : RunResult) (h : r.articles = []) :
    (∃ rest, renderReport r = docType ++ rest) ∧
    (∃ pre post, renderReport r = pre ++ noArticlesHtml ++ post) ∧
    (∃ pre, renderReport r = pre ++ reportFoot) := by
  refine ⟨⟨reportHeadTail ++ execSection r.executive ++ noArticlesHtml ++
      tsOpen ++ r.timestamp ++ tsClose ++ reportFoot, ?_⟩,
    ⟨reportHead ++ execSection r.executive,
      tsOpen ++ r.timestamp ++ tsClose ++ reportFoot, ?_⟩,
    ⟨reportHead ++ execSection r.executive ++ noArticlesHtml ++
      tsOpen ++ r.timestamp ++ tsClose, ?_⟩⟩
  · unfold renderReport reportHead
    rw [h]
    simp [renderArticles, String.append_assoc]
  · unfold renderReport
    rw [h]
    simp [renderArticles, String.append_assoc]
  · unfold renderReport
    rw [h]
    simp [renderArticles, String.append_assoc]

/-- C3 witness: the empty-run theorem applied to the concrete RunResult
with no articles. -/
theorem c3_empty_report_witness :
    (∃ rest, renderReport ⟨[], "E", "T"⟩ = docType ++ rest) ∧
    (∃ pre post, renderReport ⟨[], "E", "T"⟩ = pre ++ noArticlesHtml ++ post) ∧
    (∃ pre, renderReport ⟨[], "E", "T"⟩ = pre ++ reportFoot) :=
  c3_empty_report ⟨[], "E", "T"⟩ rfl

/-- C4: for every completion schedule — any permutation of the run's
index-tagged work units, standing for any completion order of parallel
fetch/extraction/summarization calls — reassembly by stable sort on the
original index yields exactly the sequential article order: sources in
registry order, feed order within each source; this is the order the
RunResult carries. -/
theorem c4_parallel_completion_order (w : World) (maxLen : Nat)
    (srcs : List SourceConfig) (sched : List (Nat × ArticleSummary))
    (h : sched.Perm (indexedUnits w maxLen srcs)) :
    assembleParallel sched = pipelineArticles w maxLen srcs ∧
    ∀ now, (runPipeline w srcs maxLen now).articles = assembleParallel sched := by
  have he : assembleParallel sched = pipelineArticles w maxLen srcs := by
    unfold assembleParallel
    rw [mergeSort_indexFrom_of_perm (pipelineArticles w maxLen srcs) sched h,
      indexFrom_map_snd]
  exact ⟨he, fun _ => he.symm⟩

/-- C4 witness: the two witness units completed in reversed order are a
permutation of the run's indexed units, and reassembly restores the
sequential order. -/
theorem c4_parallel_completion_order_witness :
    List.Perm [(1, aW2), (0, aW1)] (indexedUnits wWit 100 [srcWit]) ∧
    assembleParallel [(1, aW2), (0, aW1)] = pipelineArticles wWit 100 [srcWit] := by
  have hp : List.Perm [(1, aW2), (0, aW1)] (indexedUnits wWit 100 [srcWit]) := by
    decide
  exact ⟨hp, (c4_parallel_completion_order wWit 100 [srcWit] _ hp).1⟩

/-- C5: the Report Renderer is a pure function of the RunResult, and for a
fixed world, source list and truncation bound, the rendered document is
byte-identical across runs apart from the embedded generation timestamp:
there are a prefix and a suffix, independent of the timestamp, between
which the timestamp is spliced. -/
theorem c5_render_deterministic_up_to_timestamp (w : World)
    (srcs : List SourceConfig) (maxLen : Nat) :
    ∃ pre post, ∀ t : String,
      renderReport (runPipeline w srcs maxLen t) = pre ++ t ++ post := by
  refine ⟨reportHead ++ execSection (execOf w maxLen srcs) ++
    renderArticles (pipelineArticles w maxLen srcs) ++ tsOpen,
    tsClose ++ reportFoot, fun t => ?_⟩
  unfold renderReport runPipeline
  simp [String.append_assoc]

/-- C6: the Feed Fetcher yields at most the source's
max-articles-per-source stubs, and the stubs are the truncation of the feed
in feed-provided order: title, link and published date sequences each equal
the feed's own sequences truncated at the cap. -/
theorem c6_fetcher_cap_and_order (src : SourceConfig) (feed : List FeedEntry) :
    (fetchStubs src feed).length ≤ src.max_articles_per_source ∧
    (fetchStubs src feed).map (fun s => s.title) =
      (feed.map fun e => e.title).take src.max_articles_per_source ∧
    (fetchStubs src feed).map (fun s => s.link) =
      (feed.map fun e => e.link).take src.max_articles_per_source ∧
    (fetchStubs src feed).map (fun s => s.published) =
      (feed.map fun e => e.published).take src.max_articles_per_source := by
  refine ⟨?_, ?_, ?_, ?_⟩
  · simp [fetchStubs]
  · simp only [fetchStubs, List.map_map, List.map_take]
    rfl
  · simp only [fetchStubs, List.map_map, List.map_take]
    rfl
  · simp only [fetchStubs, List.map_map, List.map_take]
    rfl

/-- C7: the text submitted to the per-article summarization call is the
truncated body: its length never exceeds the configured bound, a body at or
under the bound is submitted unchanged, and for every article with a usable
body the Summarizer consumes exactly the truncated body. -/
theorem c7_summarizer_input_truncation (w : World) (maxLen : Nat)
    (c : ArticleContent) :
    (truncateBody maxLen c.body).length ≤ maxLen ∧
    (c.body.length ≤ maxLen → truncateBody maxLen c.body = c.body) ∧
    (c.body ≠ "" → summarizeArticle w maxLen c =
      acceptSummary c.stub
        (w.summarize c.stub.title (truncateBody maxLen c.body))) := by
  refine ⟨?_, ?_, ?_⟩
  · unfold truncateBody
    by_cases hl : maxLen < c.body.length
    · rw [if_pos hl]
      simp only [String.length_mk, List.length_take]
      omega
    · rw [if_neg hl]
      omega
  · intro hle
    unfold truncateBody
    rw [if_neg (by omega)]
  · intro hb
    unfold summarizeArticle
    rw [if_neg hb]

/-- C7 witness: the truncation theorem applied at the bound 100 to the
witness article content, whose body is short and non-empty. -/
theorem c7_summarizer_input_truncation_witness :
    (truncateBody 100 (ArticleContent.mk ⟨"T1", "L1", some "2025-01-01", "s1", some "R1"⟩ "Body" true).body).length ≤ 100 ∧
    truncateBody 100 (ArticleContent.mk ⟨"T1", "L1", some "2025-01-01", "s1", some "R1"⟩ "Body" true).body =
      (ArticleContent.mk ⟨"T1", "L1", some "2025-01-01", "s1", some "R1"⟩ "Body" true).body ∧
    summarizeArticle wWit 100 (ArticleContent.mk ⟨"T1", "L1", some "2025-01-01", "s1", some "R1"⟩ "Body" true) =
      acceptSummary (ArticleContent.mk ⟨"T1", "L1", some "2025-01-01", "s1", some "R1"⟩ "Body" true).stub
        (wWit.summarize (ArticleContent.mk ⟨"T1", "L1", some "2025-01-01", "s1", some "R1"⟩ "Body" true).stub.title
          (truncateBody 100 (ArticleContent.mk ⟨"T1", "L1", some "2025-01-01", "s1", some "R1"⟩ "Body" true).body)) := by
  have T := c7_summarizer_input_truncation wWit 100
    (ArticleContent.mk ⟨"T1", "L1", some "2025-01-01", "s1", some "R1"⟩ "Body" true)
  exact ⟨T.1, T.2.1 (by decide), T.2.2 (by decide)⟩

/-- C8: every article summary carried by a run's RunResult — and hence
every article card the Renderer emits — has a non-empty summary string;
articles whose summarization failed were dropped, never rendered empty. -/
theorem c8_reported_summaries_nonempty (w : World) (srcs : List SourceConfig)
    (maxLen : Nat) (now : String) (a : ArticleSummary)
    (h : a ∈ (runPipeline w srcs maxLen now).articles) : a.summary ≠ "" := by
  have h2 : a ∈ pipelineArticles w maxLen srcs := h
  clear h
  induction srcs with
  | nil => cases h2
  | cons s rest ih =>
    simp only [pipelineArticles] at h2
    rcases List.mem_append.1 h2 with h3 | h3
    · exact sourceSummaries_mem_nonempty h3
    · exact ih h3

/-- C8 witness: the first witness article is in the witness run's article
list, and its summary is non-empty. -/
theorem c8_reported_summaries_nonempty_witness :
    aW1 ∈ (runPipeline wWit [srcWit] 100 "now").articles ∧ aW1.summary ≠ "" :=
  ⟨by decide, c8_reported_summaries_nonempty wWit [srcWit] 100 "now" aW1 (by decide)⟩

end NewsSummarizer
